import Mathlib

/-!
Verification of the Chutes-MCP adapter (Python) against its specification.

Shallow embedding: the repository's pure logic (SSE stream decoding,
configuration lookup, upload-adapter control flow, health-check shaping,
tool prologues) is translated into executable Lean definitions; external
effects (the JSON parser, HTTP probes, the upload SDK, the filesystem)
are passed in as explicit parameters or small environment types.
-/

namespace ChutesMCP

/-- Python data values as produced by `json.loads` / `yaml.safe_load`:
dicts, lists, strings, numbers, booleans, None. -/
inductive Json where
  | null : Json
  | bool (b : Bool) : Json
  | num (n : Int) : Json
  | str (s : String) : Json
  | arr (xs : List Json) : Json
  | obj (fields : List (String × Json)) : Json

/-- Python truthiness of a value (`if x:`): None, False, 0, "", [], {} are
falsy, everything else is truthy. -/
def Json.truthy : Json → Bool
  | .null => false
  | .bool b => b
  | .num n => n != 0
  | .str s => s != ""
  | .arr xs => !xs.isEmpty
  | .obj fs => !fs.isEmpty

/-- Truthiness of `config.get(...)` results: `None` (lookup failed, no
default) is falsy, otherwise Python truthiness of the value. -/
def optTruthy : Option Json → Bool
  | none => false
  | some v => v.truthy

/-- Python `value[k]` with a string key, under `except (KeyError, TypeError)`:
a dict yields the entry or fails (KeyError), any non-dict fails (TypeError,
including strings and lists indexed by a string). Failure is `none`. -/
def Json.sub : Json → String → Option Json
  | .obj fs, k => fs.lookup k
  | _, _ => none

/-- Python `xs[i]` under a caught IndexError/TypeError: a list yields the
element or fails, any non-list fails. -/
def Json.idx : Json → Nat → Option Json
  | .arr xs, i => xs.get? i
  | _, _ => none

/-! ## Streaming decoder (src/tools/llm_tool.py, stream_chat)

The body of the `async for line in response.content` loop.  The external
JSON parser (`json.loads`) is a parameter `parse : String → Option Json`
(`none` = `JSONDecodeError`).  Python's `str.strip`, `str.startswith` and
slicing are embedded as structurally recursive functions on the
character list of a string. -/

/-- Python `s.strip()`: remove whitespace from both ends. -/
def pyStrip (s : String) : String :=
  ⟨((s.data.dropWhile Char.isWhitespace).reverse.dropWhile
    Char.isWhitespace).reverse⟩

/-- Python `s.startswith(pre)`. -/
def pyStartsWith (s pre : String) : Bool :=
  pre.data.isPrefixOf s.data

/-- Python `s[n:]` (character-based slicing). -/
def pyDrop (s : String) (n : Nat) : String :=
  ⟨s.data.drop n⟩

/-- The chunk-processing `try` block of `stream_chat`:
`chunk_data["choices"][0]["delta"].get("content")` is tested for truthiness
and, when truthy, appended with `+=`.  Every failure mode — KeyError /
IndexError / TypeError on the subscripts, AttributeError of `.get` on a
non-dict, TypeError of `+=` on a non-string — is caught by the surrounding
`except` clauses and skips the chunk.  Hence a chunk contributes exactly
when the field is a non-empty string. -/
def extractContent (j : Json) : Option String :=
  match (((j.sub "choices").bind (fun c => c.idx 0)).bind
      (fun c0 => c0.sub "delta")).bind (fun d => d.sub "content") with
  | some (Json.str s) => if s = "" then none else some s
  | _ => none

/-- How the byte stream ends after delivering its lines: normal end of
stream, or an `aiohttp.ClientError` connection failure. -/
inductive Terminal where
  | eof : Terminal
  | connFail : Terminal
deriving DecidableEq, Repr

/-- Message raised as a ToolError on a connection failure (the code
interpolates the exception detail after this text). -/
def connFailMsg : String := "Error connecting to Chutes API"

/-- The streaming loop of `stream_chat`: each delivered line is decoded and
stripped; lines starting with `data: ` carry a payload (`line[6:]`);
payload `[DONE]` breaks out of the loop and returns the accumulator;
other payloads are parsed and may extend the accumulator; non-`data: `
lines are ignored.  If the stream ends without `[DONE]`: EOF falls out of
the loop and returns the accumulator, while a connection failure is caught
by `except aiohttp.ClientError` and re-raised as a ToolError, discarding
the accumulator. -/
def processLines (parse : String → Option Json) :
    List String → String → Terminal → Except String String
  | [], acc, Terminal.eof => Except.ok acc
  | [], _, Terminal.connFail => Except.error connFailMsg
  | line :: rest, acc, t =>
    let l := pyStrip line
    if pyStartsWith l "data: " then
      let d := pyDrop l 6
      if d = "[DONE]" then Except.ok acc
      else
        match (parse d).bind extractContent with
        | some s => processLines parse rest (acc ++ s) t
        | none => processLines parse rest acc t
    else processLines parse rest acc t

/-- `stream_chat`'s streaming phase: accumulator starts empty. -/
def stream_chat_run (parse : String → Option Json) (lines : List String)
    (t : Terminal) : Except String String :=
  processLines parse lines "" t

/-- The `data: ` payloads of a line sequence, in order (stripped lines
starting with the literal prefix, remainder taken from position 6). -/
def dataPayloads (lines : List String) : List String :=
  lines.filterMap (fun line =>
    let l := pyStrip line
    if pyStartsWith l "data: " then some (pyDrop l 6) else none)

/-- Specification-side result of a completed stream: concatenation, in
order, of the non-empty `choices[0].delta.content` fields of those
payloads that parse as JSON and contain the field, taken up to (and
excluding) the first `[DONE]` payload. -/
def streamSpecResult (parse : String → Option Json) (lines : List String) :
    String :=
  String.join (((dataPayloads lines).takeWhile (fun d => d ≠ "[DONE]")).filterMap
    (fun d => (parse d).bind extractContent))

/-- A well-formed provider chunk whose incremental text is `s`:
`{"choices":[{"delta":{"content": s}}]}`. -/
def deltaChunk (s : String) : Json :=
  Json.obj [("choices", Json.arr [Json.obj [("delta",
    Json.obj [("content", Json.str s)])]])]

/-- The raw payload text of the spec's first example chunk. -/
def heChunkPayload : String :=
  "\x7b\"choices\":[\x7b\"delta\":\x7b\"content\":\"He\"\x7d\x7d]\x7d"

/-- The raw payload text of the spec's second example chunk. -/
def lloChunkPayload : String :=
  "\x7b\"choices\":[\x7b\"delta\":\x7b\"content\":\"llo\"\x7d\x7d]\x7d"

/-- `json.loads` restricted to the spec's example payloads: the two chunk
texts parse to the corresponding chunk values, anything else (in
particular `\x7bnot json`) fails to parse. -/
def exampleParse (d : String) : Option Json :=
  if d = heChunkPayload then some (deltaChunk "He")
  else if d = lloChunkPayload then some (deltaChunk "llo")
  else none

/-- The spec's example stream: two content chunks then the terminator. -/
def exampleLines : List String :=
  ["data: " ++ heChunkPayload, "data: " ++ lloChunkPayload, "data: [DONE]"]

/-- The spec's malformed-chunk stream: a non-JSON `data:` line between the
two valid chunks. -/
def exampleLinesMalformed : List String :=
  ["data: " ++ heChunkPayload, "data: \x7bnot json",
   "data: " ++ lloChunkPayload, "data: [DONE]"]

/-! ## Health check (src/tools/system_check_tool.py, check_mcp_status) -/

/-- Status tiers used by the health-check entries. -/
inductive Status where
  | success : Status
  | warning : Status
  | error : Status
  | info : Status
  | unknown : Status
deriving DecidableEq, Repr

/-- One per-component record of the health report (component name and
status tier; the human-readable detail string is not modelled). -/
structure StatusEntry where
  component : String
  status : Status
deriving DecidableEq, Repr

/-- Outcome of one probe's `try` block (the GET plus, for the quota probe,
the body read): an HTTP response with a status code, an
`aiohttp.ClientError`, or any other exception. -/
inductive ProbeOutcome where
  | status (code : Nat) : ProbeOutcome
  | clientError : ProbeOutcome
  | otherError : ProbeOutcome
deriving DecidableEq, Repr

/-- The configuration slice `check_mcp_status` reads: each `config.get`
result for the seven endpoint keys and the API token (`none` = key
missing). -/
structure HealthConfig where
  llm : Option Json
  text_to_image : Option Json
  text_to_music : Option Json
  image_to_image : Option Json
  text_to_video : Option Json
  image_to_video : Option Json
  image_to_video_fast : Option Json
  api_token : Option Json

/-- The fixed `endpoints_to_check` dictionary, in insertion order. -/
def endpointsToCheck (cfg : HealthConfig) : List (String × Option Json) :=
  [("LLM", cfg.llm),
   ("Text to Image", cfg.text_to_image),
   ("Text to Music", cfg.text_to_music),
   ("Image to Image", cfg.image_to_image),
   ("Text to Video", cfg.text_to_video),
   ("Image to Video", cfg.image_to_video),
   ("Image to Video Fast", cfg.image_to_video_fast)]

/-- The per-endpoint branch of the health-check loop: a configured
(truthy) URL is probed and `response.status == 400` is the reachable
signal; any other status is WARNING; an `aiohttp.ClientError` or any
other exception is ERROR; an unset endpoint is INFO. -/
def endpointCheck (probe : Json → ProbeOutcome) (name : String)
    (url : Option Json) : StatusEntry :=
  match url with
  | some u =>
    if u.truthy then
      match probe u with
      | ProbeOutcome.status code =>
        if code = 400 then ⟨name, Status.success⟩
        else ⟨name, Status.warning⟩
      | ProbeOutcome.clientError => ⟨name, Status.error⟩
      | ProbeOutcome.otherError => ⟨name, Status.error⟩
    else ⟨name, Status.info⟩
  | none => ⟨name, Status.info⟩

/-- The quota-usage branch: probed only when the API token is truthy,
with `response.status == 200` as the success signal; a missing token
gives an INFO entry. -/
def quotaCheck (api_token : Option Json) (quotaProbe : ProbeOutcome) :
    StatusEntry :=
  if optTruthy api_token then
    match quotaProbe with
    | ProbeOutcome.status code =>
      if code = 200 then ⟨"Quota Usage API", Status.success⟩
      else ⟨"Quota Usage API", Status.warning⟩
    | ProbeOutcome.clientError => ⟨"Quota Usage API", Status.error⟩
    | ProbeOutcome.otherError => ⟨"Quota Usage API", Status.error⟩
  else ⟨"Quota Usage API", Status.info⟩

/-- `check_mcp_status`: first the MCP-server entry (the `mcp` object is
constructed at import time and is always truthy, so its entry is
SUCCESS), then one entry per endpoint of the fixed dictionary —
configured or not — then the quota entry. -/
def check_mcp_status (cfg : HealthConfig) (probe : Json → ProbeOutcome)
    (quotaProbe : ProbeOutcome) : List StatusEntry :=
  ⟨"MCP Server Instance", Status.success⟩ ::
    ((endpointsToCheck cfg).map (fun p => endpointCheck probe p.1 p.2) ++
      [quotaCheck cfg.api_token quotaProbe])

/-- Number of configured (truthy) generation endpoints, the claim's `N`. -/
def configuredCount (cfg : HealthConfig) : Nat :=
  ((endpointsToCheck cfg).filter (fun p => optTruthy p.2)).length

/-- A configuration with no endpoint and no token configured. -/
def emptyHealthConfig : HealthConfig :=
  ⟨none, none, none, none, none, none, none, none⟩

/-- Specification-side status of a generation-endpoint probe per the
claim's rules: HTTP 400 → SUCCESS, any other status → WARNING,
connection failure (or any other exception) → ERROR. -/
def specEndpointStatus : ProbeOutcome → Status
  | ProbeOutcome.status code =>
    if code = 400 then Status.success else Status.warning
  | _ => Status.error

/-- Specification-side status of the quota probe per the claim's rules:
HTTP 200 → SUCCESS, any other status → WARNING, failure → ERROR. -/
def specQuotaStatus : ProbeOutcome → Status
  | ProbeOutcome.status code =>
    if code = 200 then Status.success else Status.warning
  | _ => Status.error

/-! ## Media upload adapter (src/utils/imagekit_uploader.py) -/

/-- The three upload credentials as read by `get_imagekit_instance`;
configuration values here are strings (`none` = key missing, `some ""` =
an `${ENV}` placeholder resolved against an unset variable). -/
structure ImageKitConfig where
  public_key : Option String
  private_key : Option String
  url_endpoint : Option String
deriving DecidableEq, Repr

/-- Truthiness of a string-valued `config.get` result. -/
def strTruthy : Option String → Bool
  | none => false
  | some s => s != ""

/-- `get_imagekit_instance` returns an instance exactly when
`all([public_key, private_key, url_endpoint])` holds and none of the
three equals its known placeholder value; otherwise it returns None. -/
def imagekitConfigured (c : ImageKitConfig) : Bool :=
  strTruthy c.public_key && strTruthy c.private_key &&
    strTruthy c.url_endpoint &&
    !(c.public_key == some "your_public_key") &&
    !(c.private_key == some "your_private_key") &&
    !(c.url_endpoint == some "your_url_endpoint")

/-- What the external world does during `upload_to_imagekit`'s `try`
block, in the order the code performs the steps: creating the temporary
file can fail, writing the payload into it can fail, and the SDK upload
can fail or return a URL. -/
inductive UploadEnv where
  | createFails : UploadEnv
  | writeFails : UploadEnv
  | uploadFails : UploadEnv
  | uploadOk (url : String) : UploadEnv
deriving DecidableEq, Repr

/-- Observable outcome of one `upload_to_imagekit` call: the returned
value, whether the SDK upload was invoked, whether a temporary file was
created, whether that file is still on disk when the adapter returns,
and whether an exception escapes the adapter. -/
structure UploadResult where
  url : Option String
  networkAttempted : Bool
  tempFileCreated : Bool
  tempFileExists : Bool
  raised : Bool
deriving DecidableEq, Repr

/-- `upload_to_imagekit`.  Unconfigured credentials short-circuit before
any I/O.  Otherwise the `try`/`except Exception`/`finally` block runs:
`tempfile.NamedTemporaryFile(delete=False)` creates the file on open, the
payload is written, and only then is `temp_file_path = temp_file.name`
assigned; the `finally` clause removes the file only under
`if temp_file_path and os.path.exists(temp_file_path)`.  Hence when the
write itself raises, the except clause returns None but the guard is
still None and the created file survives; when the SDK call raises or
succeeds, the path was assigned and the file is removed. -/
def upload_to_imagekit (cfg : ImageKitConfig) (env : UploadEnv) :
    UploadResult :=
  if imagekitConfigured cfg then
    match env with
    | UploadEnv.createFails => ⟨none, false, false, false, false⟩
    | UploadEnv.writeFails => ⟨none, false, true, true, false⟩
    | UploadEnv.uploadFails => ⟨none, true, true, false, false⟩
    | UploadEnv.uploadOk u => ⟨some u, true, true, false, false⟩
  else ⟨none, false, false, false, false⟩

/-- A fully configured, non-placeholder credential set. -/
def sampleImageKitConfig : ImageKitConfig :=
  ⟨some "pk", some "sk", some "https://ik.example"⟩

/-! ## Artifact annotations (src/tools/image_tool.py generate_image and
edit_image, src/tools/music_tool.py generate_music) -/

/-- The artifact-shaping epilogue shared by the generation tools after a
2xx provider response: `url = None`; when the persist flag is set, `url`
becomes the upload adapter's return; the artifact is built with
`annotations = ("imagekit_url" maps to url) if url else None`. -/
def artifactAnnotations (save_to_file : Bool) (ikCfg : ImageKitConfig)
    (env : UploadEnv) : Option (List (String × String)) :=
  let url := if save_to_file then (upload_to_imagekit ikCfg env).url
             else none
  match url with
  | some u => if u = "" then none else some [("imagekit_url", u)]
  | none => none

/-! ## Configuration accessor (src/config.py, Config.get) -/

/-- Python `s.split(sep)` on the underlying character list (helper). -/
def splitChars (sep : Char) : List Char → List Char → List (List Char)
  | [], acc => [acc.reverse]
  | c :: cs, acc =>
    if c = sep then acc.reverse :: splitChars sep cs []
    else splitChars sep cs (c :: acc)

/-- Python `s.split(sep)` for a one-character separator; in particular
`"".split('.')` is `[""]`. -/
def pySplit (s : String) (sep : Char) : List String :=
  (splitChars sep s.data []).map (fun l => ⟨l⟩)

/-- The `for k in keys: value = value[k]` loop of `Config.get`, under
`except (KeyError, TypeError)`: failure of any subscript is `none`. -/
def getLoop : Json → List String → Option Json
  | v, [] => some v
  | v, k :: ks =>
    match v.sub k with
    | some v2 => getLoop v2 ks
    | none => none

/-- `Config.get(key, default)`: split the dotted key on `.`, walk the
loaded tree, and return the stored value, or the default (`none` when no
default was given) when any subscript raises KeyError or TypeError. -/
def Config.get (cfg : Json) (key : String) (default : Option Json) :
    Option Json :=
  match getLoop cfg (pySplit key '.') with
  | some v => some v
  | none => default

/-- Specification-side walk, written from the claim's words: resolve each
segment in a nested mapping, failing when a segment is missing or the
current value is not a mapping. -/
def walkSpec : Json → List String → Option Json
  | v, [] => some v
  | Json.obj fs, k :: ks =>
    match fs.lookup k with
    | some v => walkSpec v ks
    | none => none
  | _, _ :: _ => none

/-- The spec's example tree `{"a": {"b": {"c": 5}}}`. -/
def exampleTree : Json :=
  Json.obj [("a", Json.obj [("b", Json.obj [("c", Json.num 5)])])]

/-- A tree where `a.b` is a scalar, not a mapping. -/
def exampleTreeScalarB : Json :=
  Json.obj [("a", Json.obj [("b", Json.str "scalar")])]

/-! ## Tool prologues (src/tools/llm_tool.py stream_chat,
src/tools/image_tool.py generate_image): credential checks precede the
outbound POST. -/

/-- Message raised when the API token is unset. -/
def tokenMsg : String := "CHUTES_API_TOKEN environment variable not set."

/-- `stream_chat` end to end over the embedded effects: the token check,
then the LLM-endpoint check, then the streaming phase.  The Bool records
whether the outbound POST was attempted. -/
def stream_chat_tool (cfg : Json) (parse : String → Option Json)
    (lines : List String) (t : Terminal) :
    Except String String × Bool :=
  if !(optTruthy (Config.get cfg "chutes.api_token" none)) then
    (Except.error tokenMsg, false)
  else if !(optTruthy (Config.get cfg "chutes.endpoints.llm" none)) then
    (Except.error "LLM endpoint not configured in config.yaml.", false)
  else
    (stream_chat_run parse lines t, true)

/-- `generate_image`'s prologue: the (schema-shadowed) steps guard, then
the token check, then the endpoint check; the POST happens only after
all three pass.  The Bool records whether the POST was attempted. -/
def generate_image_prologue (cfg : Json) (num_inference_steps : Nat) :
    Except String Unit × Bool :=
  if num_inference_steps > 60 then
    (Except.error "num_inference_steps cannot exceed 60.", false)
  else if !(optTruthy (Config.get cfg "chutes.api_token" none)) then
    (Except.error tokenMsg, false)
  else if !(optTruthy (Config.get cfg
      "chutes.endpoints.text_to_image" none)) then
    (Except.error "Text-to-image endpoint not configured in config.yaml.",
     false)
  else (Except.ok (), true)

/-! ## Import-time construction (src/mcp_instance.py,
src/utils/multimodal_llm.py) -/

/-- `MultimodalLLM.__init__`: raises a ToolError when the API token or
the LLM endpoint is unconfigured; otherwise construction succeeds. -/
def MultimodalLLM_init (cfg : Json) : Except String Unit :=
  if !(optTruthy (Config.get cfg "chutes.api_token" none)) then
    Except.error tokenMsg
  else if !(optTruthy (Config.get cfg "chutes.endpoints.llm" none)) then
    Except.error "LLM endpoint not configured in config.yaml."
  else Except.ok ()

/-- Import of `src.mcp_instance`: builds the FastMCP object and then
evaluates `MultimodalLLM()` at module level; a ToolError from that
constructor propagates and the module (hence the server, which every
tool module imports) never finishes loading. -/
def mcp_instance_init (cfg : Json) : Except String Unit :=
  match MultimodalLLM_init cfg with
  | Except.error e => Except.error e
  | Except.ok _ => Except.ok ()

/-! ## Theorems -/

theorem join_nil : String.join ([] : List String) = "" := rfl

theorem join_cons (s : String) (l : List String) :
    String.join (s :: l) = s ++ String.join l := by
  apply String.ext
  simp [String.data_join, String.data_append]

/-- Loop invariant of the streaming loop at normal end of stream: the
result is the incoming accumulator followed by the specification
concatenation of the remaining lines. -/
theorem processLines_eof (parse : String → Option Json) :
    ∀ (lines : List String) (acc : String),
      processLines parse lines acc Terminal.eof =
        Except.ok (acc ++ streamSpecResult parse lines) := by
  intro lines
  induction lines with
  | nil =>
    intro acc
    simp [processLines, streamSpecResult, dataPayloads, join_nil, String.append_empty]
  | cons line rest ih =>
    intro acc
    by_cases h1 : pyStartsWith (pyStrip line) "data: " = true
    · by_cases h2 : pyDrop (pyStrip line) 6 = "[DONE]"
      · simp [processLines, streamSpecResult, dataPayloads, h1, h2, join_nil,
          String.append_empty]
      · cases hc : (parse (pyDrop (pyStrip line) 6)).bind extractContent with
        | some s =>
          simp [processLines, streamSpecResult, dataPayloads, h1, h2, hc, ih,
            join_cons, String.append_assoc]
        | none =>
          simp [processLines, streamSpecResult, dataPayloads, h1, h2, hc, ih]
    · simp [processLines, streamSpecResult, dataPayloads, h1, ih]

/-- Loop behaviour on a connection failure with no `[DONE]` payload among
the delivered lines: the loop never breaks, the `aiohttp.ClientError` is
re-raised as a ToolError, and the accumulator (whatever it holds) does not
appear in the result. -/
theorem processLines_connFail (parse : String → Option Json) :
    ∀ (lines : List String) (acc : String),
      (∀ d ∈ dataPayloads lines, d ≠ "[DONE]") →
      processLines parse lines acc Terminal.connFail =
        Except.error connFailMsg := by
  intro lines
  induction lines with
  | nil => intro acc _; rfl
  | cons line rest ih =>
    intro acc h
    by_cases h1 : pyStartsWith (pyStrip line) "data: " = true
    · have hd : pyDrop (pyStrip line) 6 ≠ "[DONE]" := by
        apply h
        simp [dataPayloads, h1]
      have hrest : ∀ d ∈ dataPayloads rest, d ≠ "[DONE]" := by
        intro d hdmem
        apply h
        simp only [dataPayloads, List.filterMap_cons, h1, if_pos]
        exact List.mem_cons_of_mem _ hdmem
      cases hc : (parse (pyDrop (pyStrip line) 6)).bind extractContent with
      | some s => simp [processLines, h1, hd, hc, ih _ hrest]
      | none => simp [processLines, h1, hd, hc, ih _ hrest]
    · have hrest : ∀ d ∈ dataPayloads rest, d ≠ "[DONE]" := by
        intro d hdmem
        apply h
        simpa [dataPayloads, List.filterMap_cons, h1] using hdmem
      simp [processLines, h1, ih _ hrest]

/-- C1. Streaming decoder result: for every JSON parser behaviour and every
finite sequence of stream lines, the string returned by `stream_chat`'s
streaming loop is the in-order concatenation of the non-empty
`choices[0].delta.content` fields of exactly those `data: ` payloads that
parse as JSON and contain that field, up to (and excluding) the first
`data: [DONE]` payload; unparseable or ill-shaped payloads are skipped
without aborting accumulation.  For the spec's example chunks carrying
"He" then "llo" followed by `[DONE]` the result is exactly "Hello", also
with a malformed `data: \x7bnot json` line in between. -/
theorem stream_decoder_concatenation :
    (∀ (parse : String → Option Json) (lines : List String),
      stream_chat_run parse lines Terminal.eof =
        Except.ok (streamSpecResult parse lines)) ∧
    stream_chat_run exampleParse exampleLines Terminal.eof =
      Except.ok "Hello" ∧
    stream_chat_run exampleParse exampleLinesMalformed Terminal.eof =
      Except.ok "Hello" := by
  refine ⟨fun parse lines => ?_, ?_, ?_⟩
  · have h := processLines_eof parse lines ""
    simpa [stream_chat_run] using h
  · rfl
  · rfl

/-- C7. Streaming transport-failure atomicity: if the connection fails
before any `data: [DONE]` payload is seen, the streaming loop raises the
transport ToolError; no partial result is returned, whatever the
accumulator (here arbitrary `acc`) already holds. -/
theorem connection_failure_discards_partial (parse : String → Option Json)
    (lines : List String) (acc : String)
    (h : ∀ d ∈ dataPayloads lines, d ≠ "[DONE]") :
    processLines parse lines acc Terminal.connFail =
        Except.error connFailMsg ∧
    stream_chat_run parse lines Terminal.connFail =
        Except.error connFailMsg :=
  ⟨processLines_connFail parse lines acc h,
   processLines_connFail parse lines "" h⟩

/-- Witness for C7: a stream that accumulated "He" and then lost its
connection yields the transport error, not the partial text. -/
theorem connection_failure_discards_partial_witness :
    processLines exampleParse ["data: " ++ heChunkPayload] "He"
        Terminal.connFail = Except.error connFailMsg ∧
    stream_chat_run exampleParse ["data: " ++ heChunkPayload]
        Terminal.connFail = Except.error connFailMsg :=
  connection_failure_discards_partial exampleParse
    ["data: " ++ heChunkPayload] "He" (by decide)

/-- C8. Lenient stream termination: a stream that reaches EOF without ever
delivering a `data: [DONE]` payload and without a connection failure
raises no error and returns exactly the text accumulated from all its
payloads. -/
theorem eof_without_done_returns_accumulated (parse : String → Option Json)
    (lines : List String)
    (h : ∀ d ∈ dataPayloads lines, d ≠ "[DONE]") :
    stream_chat_run parse lines Terminal.eof =
      Except.ok (String.join ((dataPayloads lines).filterMap
        (fun d => (parse d).bind extractContent))) := by
  have ht : (dataPayloads lines).takeWhile (fun d => d ≠ "[DONE]") =
      dataPayloads lines :=
    List.takeWhile_eq_self_iff.mpr (by simpa using h)
  unfold stream_chat_run
  rw [processLines_eof parse lines "", streamSpecResult, ht]
  simp

/-- Witness for C8: the two example chunks with no terminator still yield
"Hello" at EOF. -/
theorem eof_without_done_returns_accumulated_witness :
    stream_chat_run exampleParse
        ["data: " ++ heChunkPayload, "data: " ++ lloChunkPayload]
        Terminal.eof = Except.ok "Hello" := by
  have h := eof_without_done_returns_accumulated exampleParse
    ["data: " ++ heChunkPayload, "data: " ++ lloChunkPayload] (by decide)
  exact h.trans rfl

/-- Counterexample to C2 as stated: with N = 0 configured endpoints the
health check returns 9 entries (one per endpoint of the fixed
7-endpoint list, configured or not, plus the MCP-server entry plus the
quota entry), not N + 1 = 1. -/
theorem health_check_count_counterexample :
    configuredCount emptyHealthConfig = 0 ∧
    (check_mcp_status emptyHealthConfig (fun _ => ProbeOutcome.clientError)
      ProbeOutcome.clientError).length = 9 ∧
    (check_mcp_status emptyHealthConfig (fun _ => ProbeOutcome.clientError)
        ProbeOutcome.clientError).length ≠
      configuredCount emptyHealthConfig + 1 := by
  refine ⟨rfl, rfl, ?_⟩
  decide

theorem endpointCheck_eq (probe : Json → ProbeOutcome) (name : String)
    (url : Option Json) :
    endpointCheck probe name url =
      ⟨name, match url with
             | some u => if u.truthy then specEndpointStatus (probe u)
                         else Status.info
             | none => Status.info⟩ := by
  cases url with
  | none => rfl
  | some u =>
    by_cases ht : u.truthy
    · cases hp : probe u with
      | status code =>
        by_cases hc : code = 400 <;>
          simp [endpointCheck, specEndpointStatus, ht, hp, hc]
      | clientError => simp [endpointCheck, specEndpointStatus, ht, hp]
      | otherError => simp [endpointCheck, specEndpointStatus, ht, hp]
    · simp [endpointCheck, ht]

theorem quotaCheck_eq (api_token : Option Json) (quotaProbe : ProbeOutcome) :
    quotaCheck api_token quotaProbe =
      ⟨"Quota Usage API",
       if optTruthy api_token then specQuotaStatus quotaProbe
       else Status.info⟩ := by
  by_cases ht : optTruthy api_token
  · cases hp : quotaProbe with
    | status code =>
      by_cases hc : code = 200 <;>
        simp [quotaCheck, specQuotaStatus, ht, hc]
    | clientError => simp [quotaCheck, specQuotaStatus, ht]
    | otherError => simp [quotaCheck, specQuotaStatus, ht]
  · simp [quotaCheck, ht]

/-- C2 (amended). Health-check entry count and status rules: one
invocation returns exactly 9 entries — one per endpoint of the fixed
7-endpoint list whether configured or not, plus one MCP-server-instance
entry, plus one quota entry — and every entry's tier follows the
status-code rules: HTTP 400 on a configured generation endpoint →
SUCCESS, HTTP 200 on the quota probe → SUCCESS, any other status →
WARNING, a connection failure → ERROR, an unset endpoint (or, for the
quota probe, a missing token) → INFO. -/
theorem health_check_entries (cfg : HealthConfig)
    (probe : Json → ProbeOutcome) (quotaProbe : ProbeOutcome) :
    (check_mcp_status cfg probe quotaProbe).length = 9 ∧
    check_mcp_status cfg probe quotaProbe =
      ⟨"MCP Server Instance", Status.success⟩ ::
        ((endpointsToCheck cfg).map (fun p =>
          ⟨p.1, match p.2 with
                | some u => if u.truthy then specEndpointStatus (probe u)
                            else Status.info
                | none => Status.info⟩) ++
         [⟨"Quota Usage API",
           if optTruthy cfg.api_token then specQuotaStatus quotaProbe
           else Status.info⟩]) := by
  constructor
  · simp [check_mcp_status, endpointsToCheck]
  · simp [check_mcp_status, endpointCheck_eq, quotaCheck_eq]

/-- C3. Upload never raises and degrades to absent: for every credential
set and every behaviour of the filesystem and upload SDK, the adapter
does not raise; it returns a URL exactly when it is configured and the
SDK upload succeeds, and returns absent otherwise; and the SDK upload is
invoked only when the credentials are configured (in particular, never
when any of the three is missing or equal to its placeholder). -/
theorem upload_degrades_to_absent (cfg : ImageKitConfig)
    (env : UploadEnv) :
    (upload_to_imagekit cfg env).raised = false ∧
    (upload_to_imagekit cfg env).url =
      (if imagekitConfigured cfg then
        (match env with
         | UploadEnv.uploadOk u => some u
         | _ => none)
       else none) ∧
    (upload_to_imagekit cfg env).networkAttempted =
      (imagekitConfigured cfg &&
        (match env with
         | UploadEnv.uploadFails => true
         | UploadEnv.uploadOk _ => true
         | _ => false)) := by
  by_cases hc : imagekitConfigured cfg <;> cases env <;>
    simp [upload_to_imagekit, hc]

/-- C4 failing path: with valid credentials, if writing the payload into
the already-created temporary file raises, the adapter returns absent
without raising, yet the temporary file survives the call, because
`temp_file_path` is assigned only after a successful write and the
`finally` cleanup is guarded by it.  By contrast, on the SDK-failure
path the file is removed. -/
theorem temp_file_cleanup_gap :
    (upload_to_imagekit sampleImageKitConfig
      UploadEnv.writeFails).tempFileCreated = true ∧
    (upload_to_imagekit sampleImageKitConfig
      UploadEnv.writeFails).tempFileExists = true ∧
    (upload_to_imagekit sampleImageKitConfig
      UploadEnv.writeFails).raised = false ∧
    (upload_to_imagekit sampleImageKitConfig
      UploadEnv.writeFails).url = none ∧
    (upload_to_imagekit sampleImageKitConfig
      UploadEnv.uploadFails).tempFileExists = false ∧
    (upload_to_imagekit sampleImageKitConfig
      (UploadEnv.uploadOk "https://ik.example/a.jpg")).tempFileExists =
      false := by
  refine ⟨rfl, rfl, rfl, rfl, rfl, rfl⟩

/-- C9. Artifact annotation presence: after a 2xx provider response the
artifact carries an `imagekit_url` annotation iff persistence was on and
the upload adapter returned a URL; with persistence disabled the
annotations are absent; and with persistence enabled but upload
credentials absent/placeholder the annotations are absent (while, by C3,
nothing raises).  The hypothesis records that a successful SDK upload
carries a non-empty URL. -/
theorem artifact_annotation_iff (ikCfg : ImageKitConfig)
    (env : UploadEnv) (save_to_file : Bool)
    (hne : ∀ u, env = UploadEnv.uploadOk u → u ≠ "") :
    ((∃ u, artifactAnnotations save_to_file ikCfg env =
        some [("imagekit_url", u)]) ↔
      (save_to_file = true ∧
        ∃ u, (upload_to_imagekit ikCfg env).url = some u)) ∧
    artifactAnnotations false ikCfg env = none ∧
    (imagekitConfigured ikCfg = false →
      artifactAnnotations save_to_file ikCfg env = none) := by
  by_cases hc : imagekitConfigured ikCfg <;>
    cases env <;> cases save_to_file <;>
      simp_all [artifactAnnotations, upload_to_imagekit]

/-- Witness for C9: a configured upload returning a concrete URL yields
exactly the `imagekit_url` annotation. -/
theorem artifact_annotation_iff_witness :
    ((∃ u, artifactAnnotations true sampleImageKitConfig
        (UploadEnv.uploadOk "https://ik.example/a.jpg") =
          some [("imagekit_url", u)]) ↔
      (true = true ∧
        ∃ u, (upload_to_imagekit sampleImageKitConfig
          (UploadEnv.uploadOk "https://ik.example/a.jpg")).url = some u)) ∧
    artifactAnnotations false sampleImageKitConfig
      (UploadEnv.uploadOk "https://ik.example/a.jpg") = none ∧
    (imagekitConfigured sampleImageKitConfig = false →
      artifactAnnotations true sampleImageKitConfig
        (UploadEnv.uploadOk "https://ik.example/a.jpg") = none) :=
  artifact_annotation_iff sampleImageKitConfig
    (UploadEnv.uploadOk "https://ik.example/a.jpg") true
    (by intro u h; cases h; decide)

theorem getLoop_eq_walkSpec : ∀ (ks : List String) (v : Json),
    getLoop v ks = walkSpec v ks := by
  intro ks
  induction ks with
  | nil => intro v; cases v <;> rfl
  | cons k ks ih =>
    intro v
    cases v with
    | obj fs =>
      simp only [getLoop, walkSpec, Json.sub]
      cases fs.lookup k with
      | some v2 => exact ih v2
      | none => rfl
    | null => rfl
    | bool b => rfl
    | num n => rfl
    | str s => rfl
    | arr xs => rfl

/-- C5. Configuration accessor totality and fallback: for every dotted
key and every configuration tree, `Config.get` splits the key on `.`,
walks the tree segment by segment, returns the stored value when every
segment resolves and otherwise (missing segment or non-mapping value)
returns the given default — `none` when no default is given — never
raising.  On `{"a": {"b": {"c": 5}}}`: `get("a.b.c")` is `5`,
`get("a.x", "fallback")` is `"fallback"`, and `get("a.b.c")` with a
scalar at `b` is the absent default. -/
theorem config_get_walks_with_default :
    (∀ (cfg : Json) (key : String) (default : Option Json),
      Config.get cfg key default =
        (match walkSpec cfg (pySplit key '.') with
         | some v => some v
         | none => default)) ∧
    Config.get exampleTree "a.b.c" none = some (Json.num 5) ∧
    Config.get exampleTree "a.x" (some (Json.str "fallback")) =
      some (Json.str "fallback") ∧
    Config.get exampleTreeScalarB "a.b.c" none = none := by
  refine ⟨fun cfg key default => ?_, rfl, rfl, rfl⟩
  simp [Config.get, getLoop_eq_walkSpec]

/-- C6. Missing-token precondition failure: with the API token absent or
empty (and, for `generate_image`, a schema-valid steps parameter), both
generation tools fail with the ToolError whose message names the token,
and in both the outbound network call is never attempted.  The last
conjunct checks that the message literally starts with
`CHUTES_API_TOKEN`. -/
theorem missing_token_fails_before_network (cfg : Json)
    (parse : String → Option Json) (lines : List String) (t : Terminal)
    (steps : Nat)
    (htok : optTruthy (Config.get cfg "chutes.api_token" none) = false)
    (hsteps : steps ≤ 60) :
    stream_chat_tool cfg parse lines t = (Except.error tokenMsg, false) ∧
    generate_image_prologue cfg steps = (Except.error tokenMsg, false) ∧
    pyStartsWith tokenMsg "CHUTES_API_TOKEN" = true := by
  have h60 : ¬ steps > 60 := by omega
  refine ⟨?_, ?_, by decide⟩
  · simp [stream_chat_tool, htok]
  · simp [generate_image_prologue, htok, h60]

/-- Witness for C6: an empty configuration tree has no token; both tools
fail before the network with the token message. -/
theorem missing_token_fails_before_network_witness :
    stream_chat_tool (Json.obj []) exampleParse exampleLines Terminal.eof =
      (Except.error tokenMsg, false) ∧
    generate_image_prologue (Json.obj []) 25 =
      (Except.error tokenMsg, false) ∧
    pyStartsWith tokenMsg "CHUTES_API_TOKEN" = true :=
  missing_token_fails_before_network (Json.obj []) exampleParse
    exampleLines Terminal.eof 25 rfl (by decide)

/-- C10. Missing credentials are fatal at startup: whenever the API token
or the LLM endpoint is unconfigured, building the shared MCP instance
fails at import time with a ToolError, before any tool can be invoked. -/
theorem startup_fails_without_credentials (cfg : Json)
    (h : optTruthy (Config.get cfg "chutes.api_token" none) = false ∨
      optTruthy (Config.get cfg "chutes.endpoints.llm" none) = false) :
    ∃ e, mcp_instance_init cfg = Except.error e := by
  by_cases ht : optTruthy (Config.get cfg "chutes.api_token" none)
  · have he : optTruthy (Config.get cfg "chutes.endpoints.llm" none) =
        false := by
      rcases h with h | h
      · rw [ht] at h; cases h
      · exact h
    exact ⟨"LLM endpoint not configured in config.yaml.",
      by simp [mcp_instance_init, MultimodalLLM_init, ht, he]⟩
  · exact ⟨tokenMsg,
      by simp [mcp_instance_init, MultimodalLLM_init, ht]⟩

/-- Witness for C10: an empty configuration tree makes the import-time
construction fail. -/
theorem startup_fails_without_credentials_witness :
    ∃ e, mcp_instance_init (Json.obj []) = Except.error e :=
  startup_fails_without_credentials (Json.obj []) (Or.inl rfl)

end ChutesMCP

